import Mathlib

/-!
Verification of the BudgetBot ML service core (`src/main.py`) against its
natural-language specification.

Shallow embedding conventions:
* Python strings are Lean `String`s; `str.lower` is `String.toLower`
  (identical on the ASCII data appearing in the rule table).
* Python's substring test `kw in s` is `strContains s kw`, substring
  containment on the character lists.
* Monetary floating-point values are modelled as `ℚ`; the IEEE value NaN
  (which arises from pandas moving averages with insufficient history) is
  modelled as `none` in `Option ℚ`, with NaN-propagating arithmetic
  (`oAdd`, `oSub`, `oMul`) and NaN-absorbing comparison (`oPos none = false`,
  matching `nan > 0 == False`).
* Calendar dates are day numbers (`offset from an epoch`): `datetime` dates map
  to `ℕ`, `+ timedelta(days=i)` is `+ i`.
* `round(x, 2)` is `round2`, rounding to a multiple of 1/100.
-/

/-! ### Category classifier (`categorize_transaction`, src/main.py lines 55-76) -/

/-- Substring containment on character lists: `containsSub kw s = true` iff
`kw` occurs contiguously in `s`; mirrors Python `kw in s`. -/
def containsSub (kw : List Char) : List Char → Bool
  | [] => kw.isEmpty
  | c :: rest => kw.isPrefixOf (c :: rest) || containsSub kw rest

/-- `strContains dl kw` mirrors Python `kw in dl` where `dl` is an already
lowercased description held as its character list. -/
def strContains (dl : List Char) (kw : String) : Bool :=
  containsSub kw.data dl

/-- Python `description.lower()`: lowercase every character (`String.toLower`
maps `Char.toLower` over the characters; we keep the character list). -/
def lowerData (description : String) : List Char :=
  description.data.map Char.toLower

/-- The static keyword rule table `CATEGORY_KEYWORDS` (src/main.py lines
28-37), in Python dict insertion order, which iteration preserves. -/
def CATEGORY_KEYWORDS : List (String × List String) :=
  [ ("Groceries", ["walmart", "kroger", "safeway", "whole foods", "grocery", "supermarket", "food mart"]),
    ("Dining", ["restaurant", "cafe", "pizza", "mcdonald", "starbucks", "coffee", "burger", "dining"]),
    ("Transportation", ["uber", "lyft", "gas", "fuel", "parking", "metro", "train", "bus", "transit"]),
    ("Entertainment", ["movie", "netflix", "spotify", "cinema", "theater", "gaming", "gym", "sports"]),
    ("Healthcare", ["pharmacy", "hospital", "doctor", "clinic", "medical", "health", "cvs", "walgreens"]),
    ("Utilities", ["electric", "water", "gas bill", "internet", "phone", "utility", "comcast", "verizon"]),
    ("Shopping", ["amazon", "target", "mall", "store", "retail", "clothing", "fashion"]),
    ("Rent/Mortgage", ["rent", "mortgage", "property", "lease"]) ]

/-- Result shape of `categorize_transaction`:
`{category, confidence, method}`. -/
structure CatResult where
  category : String
  confidence : ℚ
  method : String
deriving DecidableEq, Repr

/-- The nested loops of `categorize_transaction`: scan the rule table in
order and return the first category one of whose keywords occurs in the
lowercased description (the inner `for keyword in keywords: if keyword in
description_lower: return …` loop is the `List.any` over that category's
keywords — the returned record does not depend on which keyword hit). -/
def firstMatchCat : List (String × List String) → List Char → Option String
  | [], _ => none
  | (cat, kws) :: rest, dl =>
    if kws.any (fun kw => strContains dl kw) then some cat
    else firstMatchCat rest dl

/-- `categorize_transaction` (src/main.py lines 55-76): keyword matching over
the lowercased description with a type-dependent default fallback. -/
def categorize_transaction (description ttype : String) : CatResult :=
  match firstMatchCat CATEGORY_KEYWORDS (lowerData description) with
  | some cat => { category := cat, confidence := 85/100, method := "keyword_matching" }
  | none =>
    { category := if ttype = "expense" then "Shopping" else "Other Income",
      confidence := 50/100, method := "default" }

/-! ### Classifier lemmas -/

/-- The scan returns `none` exactly when no keyword of any rule occurs in the
description. -/
theorem firstMatchCat_eq_none_iff (table : List (String × List String)) (dl : List Char) :
    firstMatchCat table dl = none ↔
      ∀ p ∈ table, ∀ kw ∈ p.2, strContains dl kw = false := by
  induction table with
  | nil => simp [firstMatchCat]
  | cons hd tl ih =>
    obtain ⟨cat, kws⟩ := hd
    by_cases h : (kws.any fun kw => strContains dl kw) = true
    · simp only [firstMatchCat]
      rw [if_pos h]
      constructor
      · intro hc; exact absurd hc (by simp)
      · intro hall
        rcases List.any_eq_true.mp h with ⟨kw, hkw, hs⟩
        have := hall (cat, kws) (List.mem_cons_self _ _) kw hkw
        simp [this] at hs
    · simp only [firstMatchCat]
      rw [if_neg h, ih]
      constructor
      · intro hall p hp kw hkw
        rcases List.mem_cons.mp hp with rfl | hp'
        · have := List.any_eq_true (l := kws) (p := fun kw => strContains dl kw)
          by_cases hc : strContains dl kw = true
          · exact absurd (List.any_eq_true.mpr ⟨kw, hkw, hc⟩) h
          · simpa using hc
        · exact hall p hp' kw hkw
      · intro hall p hp kw hkw
        exact hall p (List.mem_cons_of_mem _ hp) kw hkw

/-- If the scan returns `some cat`, then the table splits as
`pre ++ (cat, kws) :: post` where no keyword of any earlier rule matches and
some keyword of `kws` does: `cat` is the first matching rule in table order. -/
theorem firstMatchCat_eq_some (table : List (String × List String)) (dl : List Char)
    (cat : String) (h : firstMatchCat table dl = some cat) :
    ∃ pre kws post, table = pre ++ (cat, kws) :: post ∧
      (∀ p ∈ pre, ∀ kw ∈ p.2, strContains dl kw = false) ∧
      (∃ kw ∈ kws, strContains dl kw = true) := by
  induction table with
  | nil => simp [firstMatchCat] at h
  | cons hd tl ih =>
    obtain ⟨c, kws⟩ := hd
    by_cases hm : (kws.any fun kw => strContains dl kw) = true
    · simp only [firstMatchCat] at h
      rw [if_pos hm] at h
      cases h
      exact ⟨[], kws, tl, by simp, by simp, List.any_eq_true.mp hm⟩
    · simp only [firstMatchCat] at h
      rw [if_neg hm] at h
      rcases ih h with ⟨pre, kws', post, heq, hpre, hmatch⟩
      refine ⟨(c, kws) :: pre, kws', post, by simp [heq], ?_, hmatch⟩
      intro p hp kw hkw
      rcases List.mem_cons.mp hp with rfl | hp'
      · by_cases hc : strContains dl kw = true
        · exact absurd (List.any_eq_true.mpr ⟨kw, hkw, hc⟩) hm
        · simpa using hc
      · exact hpre p hp' kw hkw

/-! ### Claim theorems for the classifier -/

/-- C3: for every transaction whose lowercased description contains at least
one configured keyword as a substring, `categorize_transaction` returns the
category of the first matching rule in the rule table's defined order, with
confidence exactly 0.85 and method "keyword_matching". -/
theorem C3_keyword_match_first_rule (description ttype : String)
    (h : ∃ p ∈ CATEGORY_KEYWORDS, ∃ kw ∈ p.2, strContains (lowerData description) kw = true) :
    ∃ pre kws post,
      CATEGORY_KEYWORDS = pre ++ ((categorize_transaction description ttype).category, kws) :: post ∧
      (∀ p ∈ pre, ∀ kw ∈ p.2, strContains (lowerData description) kw = false) ∧
      (∃ kw ∈ kws, strContains (lowerData description) kw = true) ∧
      (categorize_transaction description ttype).confidence = 85/100 ∧
      (categorize_transaction description ttype).method = "keyword_matching" := by
  rcases hsome : firstMatchCat CATEGORY_KEYWORDS (lowerData description) with _ | cat
  · rcases h with ⟨p, hp, kw, hkw, hs⟩
    have := (firstMatchCat_eq_none_iff CATEGORY_KEYWORDS (lowerData description)).mp hsome p hp kw hkw
    rw [this] at hs
    exact absurd hs (by simp)
  · rcases firstMatchCat_eq_some CATEGORY_KEYWORDS (lowerData description) cat hsome with
      ⟨pre, kws, post, heq, hpre, hmatch⟩
    have hres : categorize_transaction description ttype =
        { category := cat, confidence := 85/100, method := "keyword_matching" } := by
      unfold categorize_transaction
      rw [hsome]
    exact ⟨pre, kws, post, by rw [hres]; exact heq, hpre, hmatch, by rw [hres], by rw [hres]⟩

/-- Witness for C3: description "Starbucks Coffee #4521" matches a keyword and
is classified by the first-matching rule with confidence 0.85. -/
theorem C3_keyword_match_first_rule_witness :
    (∃ p ∈ CATEGORY_KEYWORDS, ∃ kw ∈ p.2,
        strContains (lowerData "Starbucks Coffee #4521") kw = true) ∧
    ∃ pre kws post,
      CATEGORY_KEYWORDS = pre ++
        ((categorize_transaction "Starbucks Coffee #4521" "expense").category, kws) :: post ∧
      (∀ p ∈ pre, ∀ kw ∈ p.2,
        strContains (lowerData "Starbucks Coffee #4521") kw = false) ∧
      (∃ kw ∈ kws, strContains (lowerData "Starbucks Coffee #4521") kw = true) ∧
      (categorize_transaction "Starbucks Coffee #4521" "expense").confidence = 85/100 ∧
      (categorize_transaction "Starbucks Coffee #4521" "expense").method = "keyword_matching" :=
  ⟨by decide, C3_keyword_match_first_rule "Starbucks Coffee #4521" "expense" (by decide)⟩

/-- C8: for every transaction whose lowercased description contains no
configured keyword, `categorize_transaction` returns method "default" with
confidence 0.50, and the category is "Shopping" iff the type is "expense",
else "Other Income"; the classifier is a total function (no error path). -/
theorem C8_default_fallback (description ttype : String)
    (h : ∀ p ∈ CATEGORY_KEYWORDS, ∀ kw ∈ p.2, strContains (lowerData description) kw = false) :
    categorize_transaction description ttype =
      { category := if ttype = "expense" then "Shopping" else "Other Income",
        confidence := 50/100, method := "default" } ∧
    ((categorize_transaction description ttype).category = "Shopping" ↔ ttype = "expense") := by
  have hnone : firstMatchCat CATEGORY_KEYWORDS (lowerData description) = none :=
    (firstMatchCat_eq_none_iff CATEGORY_KEYWORDS (lowerData description)).mpr h
  have hres : categorize_transaction description ttype =
      { category := if ttype = "expense" then "Shopping" else "Other Income",
        confidence := 50/100, method := "default" } := by
    unfold categorize_transaction
    rw [hnone]
  refine ⟨hres, ?_⟩
  rw [hres]
  by_cases ht : ttype = "expense"
  · simp [ht]
  · simp [ht]

/-- Witness for C8: description "Acme Consulting Payment" of type "income"
matches no keyword and falls back to "Other Income" at confidence 0.50. -/
theorem C8_default_fallback_witness :
    (∀ p ∈ CATEGORY_KEYWORDS, ∀ kw ∈ p.2,
        strContains (lowerData "Acme Consulting Payment") kw = false) ∧
    (categorize_transaction "Acme Consulting Payment" "income" =
      { category := "Other Income", confidence := 50/100, method := "default" } ∧
    ((categorize_transaction "Acme Consulting Payment" "income").category = "Shopping" ↔
      ("income" : String) = "expense")) :=
  ⟨by decide, C8_default_fallback "Acme Consulting Payment" "income" (by decide)⟩

/-- C10: whenever any configured keyword matches the description, the entire
classifier output is independent of the transaction's type: two calls with the
same description and different types return identical results, at confidence
0.85 with method "keyword_matching". -/
theorem C10_match_output_type_independent (description t1 t2 : String)
    (h : ∃ p ∈ CATEGORY_KEYWORDS, ∃ kw ∈ p.2, strContains (lowerData description) kw = true) :
    categorize_transaction description t1 = categorize_transaction description t2 ∧
    (categorize_transaction description t1).confidence = 85/100 ∧
    (categorize_transaction description t1).method = "keyword_matching" := by
  rcases hsome : firstMatchCat CATEGORY_KEYWORDS (lowerData description) with _ | cat
  · rcases h with ⟨p, hp, kw, hkw, hs⟩
    have := (firstMatchCat_eq_none_iff CATEGORY_KEYWORDS (lowerData description)).mp hsome p hp kw hkw
    rw [this] at hs
    exact absurd hs (by simp)
  · have h1 : categorize_transaction description t1 =
        { category := cat, confidence := 85/100, method := "keyword_matching" } := by
      unfold categorize_transaction
      rw [hsome]
    have h2 : categorize_transaction description t2 =
        { category := cat, confidence := 85/100, method := "keyword_matching" } := by
      unfold categorize_transaction
      rw [hsome]
    exact ⟨h1.trans h2.symm, by rw [h1], by rw [h1]⟩

/-- Witness for C10: an income transaction described "Uber Trip Receipt" is
classified identically to an expense transaction with the same description,
at the keyword-match confidence. -/
theorem C10_match_output_type_independent_witness :
    (∃ p ∈ CATEGORY_KEYWORDS, ∃ kw ∈ p.2,
        strContains (lowerData "Uber Trip Receipt") kw = true) ∧
    (categorize_transaction "Uber Trip Receipt" "income" =
        categorize_transaction "Uber Trip Receipt" "expense" ∧
      (categorize_transaction "Uber Trip Receipt" "income").confidence = 85/100 ∧
      (categorize_transaction "Uber Trip Receipt" "income").method = "keyword_matching") :=
  ⟨by decide, C10_match_output_type_independent "Uber Trip Receipt" "income" "expense" (by decide)⟩

/-! ### Forecasting (`forecast_expenses`, src/main.py lines 78-128)

A transaction as consumed by the forecast path: its calendar date (a day
number; `pd.to_datetime` plus sorting only needs the dates' order) and its
amount.  `trend`, the moving-average values, and every predicted amount are
IEEE floats that can be NaN; they are modelled in `Option ℚ` with `none` for
NaN. -/

structure Tx where
  date : ℕ
  amount : ℚ
deriving DecidableEq, Repr

/-- Insert a date into an ascending duplicate-free date list. -/
def insertSortedNoDup (d : ℕ) : List ℕ → List ℕ
  | [] => [d]
  | x :: xs =>
    if d < x then d :: x :: xs
    else if d = x then x :: xs
    else x :: insertSortedNoDup d xs

/-- The group keys of `df.groupby('transaction_date')`: the distinct
transaction dates in ascending order (groupby sorts its keys; the earlier
`df.sort_values` is absorbed by this). -/
def datesOf (txs : List Tx) : List ℕ :=
  txs.foldr (fun t acc => insertSortedNoDup t.date acc) []

/-- The groupby aggregation `['amount'].sum()` for one date: the sum of the
amounts of all transactions on that date. -/
def dailyTotal (txs : List Tx) (d : ℕ) : ℚ :=
  ((txs.filter (fun t => t.date == d)).map (fun t => t.amount)).sum

/-- `daily_spending` (src/main.py line 95): one summed amount per distinct
date, in ascending date order. -/
def dailySeries (txs : List Tx) : List ℚ :=
  (datesOf txs).map (dailyTotal txs)

/-- Sum of the trailing window of width `w` ending at position `i`. -/
def windowSum (s : List ℚ) (i w : ℕ) : ℚ :=
  ((s.take (i + 1)).drop (i + 1 - w)).sum

/-- `daily_spending.rolling(window=w).mean()` (src/main.py lines 98-99):
position `i` holds the mean of the last `w` values when at least `w` values
of history exist, and NaN (`none`) before that (pandas' default
`min_periods` equals the window size). -/
def rollingMean (w : ℕ) (s : List ℚ) : List (Option ℚ) :=
  (List.range s.length).map fun i =>
    if w ≤ i + 1 then some (windowSum s i w / (w : ℚ)) else none

/-- `series.iloc[-1]`: the entry at the last position. -/
def ilocLast (l : List (Option ℚ)) : Option ℚ :=
  l.getD (l.length - 1) none

/-- NaN-propagating addition on modelled floats. -/
def oAdd : Option ℚ → Option ℚ → Option ℚ
  | some a, some b => some (a + b)
  | _, _ => none

/-- NaN-propagating subtraction on modelled floats. -/
def oSub : Option ℚ → Option ℚ → Option ℚ
  | some a, some b => some (a - b)
  | _, _ => none

/-- NaN-propagating multiplication on modelled floats. -/
def oMul : Option ℚ → Option ℚ → Option ℚ
  | some a, some b => some (a * b)
  | _, _ => none

/-- NaN-propagating division on modelled floats (only ever applied with the
nonzero literal divisor 30). -/
def oDiv : Option ℚ → Option ℚ → Option ℚ
  | some a, some b => some (a / b)
  | _, _ => none

/-- `x > 0` on a modelled float: NaN compares false (`nan > 0` is `False`). -/
def oPos : Option ℚ → Bool
  | some q => decide (0 < q)
  | none => false

/-- Python `round(x, 2)`: round to a multiple of 1/100 (half-up here; the
claims never hit a half-way case, where CPython rounds half-to-even on the
underlying binary float). -/
def round2 (q : ℚ) : ℚ :=
  (⌊q * 100 + 1/2⌋ : ℚ) / 100

/-- `round(x, 2)` lifted over NaN: `round(nan, 2)` is NaN. -/
def oRound2 : Option ℚ → Option ℚ :=
  Option.map round2

/-- Python `sum(...)` over modelled floats, starting from 0: one NaN term
makes the sum NaN. -/
def oSum (l : List (Option ℚ)) : Option ℚ :=
  l.foldl oAdd (some 0)

/-- `avg_daily = daily_spending.mean()` (src/main.py line 102). -/
def avgDailyOf (txs : List Tx) : ℚ :=
  (dailySeries txs).sum / ((dailySeries txs).length : ℚ)

/-- `trend = (ma_7.iloc[-1] - ma_30.iloc[-1]) if len(ma_7) > 0 else 0`
(src/main.py line 103), including the guard exactly as written: `len(ma_7)`
is the length of the rolling-mean series, not the number of defined
entries. -/
def trendOf (txs : List Tx) : Option ℚ :=
  if 0 < (rollingMean 7 (dailySeries txs)).length then
    oSub (ilocLast (rollingMean 7 (dailySeries txs)))
      (ilocLast (rollingMean 30 (dailySeries txs)))
  else some 0

/-- One entry of `daily_predictions` (src/main.py lines 111-115). -/
structure Prediction where
  date : ℕ
  predicted_amount : Option ℚ
  confidence : String
deriving DecidableEq, Repr

/-- The success payload of `/forecast` (src/main.py lines 119-125). -/
structure ForecastSuccess where
  forecast_period : String
  total_predicted_expense : Option ℚ
  daily_predictions : List Prediction
  avg_daily_expense : ℚ
  trend : String
deriving DecidableEq, Repr

/-- Result of `forecast_expenses`: the insufficient-data shape
(src/main.py lines 85-88) or the success shape. -/
inductive ForecastResult where
  | insufficient (error message : String)
  | success (f : ForecastSuccess)
deriving DecidableEq, Repr

/-- The `predictions` list built by the loop `for i in range(1, 31)`
(src/main.py lines 108-115): entry `j` is day offset `i = j + 1`, with
`predicted_amount = round(avg_daily + trend * i / 30, 2)` and the fixed
confidence label. -/
def predsOf (today : ℕ) (txs : List Tx) : List Prediction :=
  (List.range 30).map fun j =>
    { date := today + (j + 1),
      predicted_amount :=
        oRound2 (oAdd (some (avgDailyOf txs))
          (oDiv (oMul (trendOf txs) (some ((j + 1 : ℕ) : ℚ))) (some 30))),
      confidence := "medium" }

/-- `forecast_expenses` (src/main.py lines 78-128), with the invocation date
(`datetime.now()`) injected as the day number `today`. -/
def forecast_expenses (today : ℕ) (txs : List Tx) : ForecastResult :=
  if txs.length < 30 then
    .insufficient "Insufficient data"
      "Need at least 30 transactions for accurate forecasting"
  else
    .success
      { forecast_period := "30_days",
        total_predicted_expense :=
          oRound2 (oSum ((predsOf today txs).map fun p => p.predicted_amount)),
        daily_predictions := predsOf today txs,
        avg_daily_expense := round2 (avgDailyOf txs),
        trend := if oPos (trendOf txs) then "increasing" else "decreasing" }

/-! ### Forecast lemmas -/

/-- Inserting into a date list never yields the empty list. -/
theorem insertSortedNoDup_ne_nil (d : ℕ) (l : List ℕ) : insertSortedNoDup d l ≠ [] := by
  cases l with
  | nil => simp [insertSortedNoDup]
  | cons x xs =>
    simp only [insertSortedNoDup]
    split
    · simp
    · split <;> simp

/-- A nonempty batch aggregates to a nonempty date list. -/
theorem datesOf_ne_nil (txs : List Tx) (h : txs ≠ []) : datesOf txs ≠ [] := by
  cases txs with
  | nil => exact absurd rfl h
  | cons t ts => exact insertSortedNoDup_ne_nil t.date (datesOf ts)

/-- The daily series has one entry per distinct date. -/
theorem dailySeries_length (txs : List Tx) :
    (dailySeries txs).length = (datesOf txs).length :=
  List.length_map _ _

/-- A rolling mean has the same length as its input series. -/
theorem rollingMean_length (w : ℕ) (s : List ℚ) :
    (rollingMean w s).length = s.length := by
  simp [rollingMean]

/-- Value of `iloc[-1]` on a rolling mean of a nonempty series: defined with
the trailing-window mean when at least `w` entries exist, NaN otherwise. -/
theorem ilocLast_rollingMean (w : ℕ) (s : List ℚ) (h : s ≠ []) :
    ilocLast (rollingMean w s) =
      if w ≤ s.length then some (windowSum s (s.length - 1) w / (w : ℚ)) else none := by
  have hn : 0 < s.length := List.length_pos.mpr h
  have hlen : (rollingMean w s).length = s.length := rollingMean_length w s
  have hidx : s.length - 1 < s.length := Nat.sub_lt hn Nat.one_pos
  unfold ilocLast
  rw [hlen]
  have hget : (rollingMean w s).get? (s.length - 1) =
      some (if w ≤ (s.length - 1) + 1 then
        some (windowSum s (s.length - 1) w / (w : ℚ)) else none) := by
    unfold rollingMean
    rw [List.get?_map, List.get?_range hidx]
    rfl
  rw [List.getD_eq_get?, hget]
  rw [Nat.sub_add_cancel hn]
  rfl

/-- `iloc[-1]` of a rolling mean is NaN when the series is shorter than the
window. -/
theorem ilocLast_rollingMean_none (w : ℕ) (s : List ℚ) (h : s.length < w) :
    ilocLast (rollingMean w s) = none := by
  cases s with
  | nil => rfl
  | cons a l =>
    rw [ilocLast_rollingMean w (a :: l) (by simp)]
    rw [if_neg (by omega)]

/-- With a nonempty batch the guard `len(ma_7) > 0` always holds, so the
trend is the difference of the two last moving-average entries. -/
theorem trendOf_eq (txs : List Tx) (h : txs ≠ []) :
    trendOf txs =
      oSub (ilocLast (rollingMean 7 (dailySeries txs)))
        (ilocLast (rollingMean 30 (dailySeries txs))) := by
  unfold trendOf
  rw [if_pos]
  rw [rollingMean_length, dailySeries_length]
  exact List.length_pos.mpr (datesOf_ne_nil txs h)

/-- With fewer than 30 aggregated days the 30-day average at the last
position is NaN, hence so is the trend. -/
theorem trendOf_none_of_days_lt_30 (txs : List Tx) (h : txs ≠ [])
    (hdays : (datesOf txs).length < 30) :
    trendOf txs = none := by
  rw [trendOf_eq txs h]
  rw [ilocLast_rollingMean_none 30 (dailySeries txs)
    (by rw [dailySeries_length]; exact hdays)]
  cases ilocLast (rollingMean 7 (dailySeries txs)) <;> rfl

/-- NaN absorbs multiplication on the left. -/
theorem oMul_none_left (x : Option ℚ) : oMul none x = none := by cases x <;> rfl

/-- NaN absorbs division on the left. -/
theorem oDiv_none_left (x : Option ℚ) : oDiv none x = none := by cases x <;> rfl

/-- NaN absorbs addition on the right. -/
theorem oAdd_none_right (x : Option ℚ) : oAdd x none = none := by cases x <;> rfl

/-- The success payload returned for a batch of at least 30 transactions,
spelled out. -/
theorem forecast_success_eq (today : ℕ) (txs : List Tx) (h : 30 ≤ txs.length) :
    forecast_expenses today txs = .success
      { forecast_period := "30_days",
        total_predicted_expense :=
          oRound2 (oSum ((predsOf today txs).map fun p => p.predicted_amount)),
        daily_predictions := predsOf today txs,
        avg_daily_expense := round2 (avgDailyOf txs),
        trend := if oPos (trendOf txs) then "increasing" else "decreasing" } := by
  unfold forecast_expenses
  rw [if_neg (by omega)]

/-- Entry `i` of the prediction list, spelled out. -/
theorem predsOf_get (today : ℕ) (txs : List Tx) (i : ℕ)
    (hi : i < (predsOf today txs).length) :
    (predsOf today txs).get ⟨i, hi⟩ =
      { date := today + (i + 1),
        predicted_amount :=
          oRound2 (oAdd (some (avgDailyOf txs))
            (oDiv (oMul (trendOf txs) (some ((i + 1 : ℕ) : ℚ))) (some 30))),
        confidence := "medium" } := by
  simp [predsOf, List.get_eq_getElem, List.getElem_map, List.getElem_range]

/-- The prediction list has 30 entries. -/
theorem predsOf_length (today : ℕ) (txs : List Tx) :
    (predsOf today txs).length = 30 := by
  simp [predsOf]

/-! ### Concrete batches used by witnesses and the C1 counterexample -/

/-- 30 transactions on 30 distinct consecutive days, amount 10 each. -/
def sampleTxs : List Tx :=
  (List.range 30).map fun i => ⟨i, 10⟩

/-- 30 transactions all on the same calendar day, amount 10 each. -/
def oneDayTxs : List Tx :=
  List.replicate 30 ⟨0, 10⟩

/-- 30 transactions spread over 10 distinct days, amount 5 each. -/
def tenDayTxs : List Tx :=
  (List.range 30).map fun i => ⟨i % 10, 5⟩

/-! ### Claim theorems for the forecaster -/

/-- C2: a forecast request with fewer than 30 transactions returns the
structured insufficient-data result and never a forecast; with 30 or more it
returns the success shape, not the insufficient-data shape. -/
theorem C2_insufficient_data_threshold (today : ℕ) (txs : List Tx) :
    (txs.length < 30 → forecast_expenses today txs =
      .insufficient "Insufficient data"
        "Need at least 30 transactions for accurate forecasting") ∧
    (30 ≤ txs.length → ∃ f, forecast_expenses today txs = .success f) := by
  constructor
  · intro h
    unfold forecast_expenses
    rw [if_pos h]
  · intro h
    exact ⟨_, forecast_success_eq today txs h⟩

/-- Witness for C2: the empty batch gets the insufficient-data shape; a
30-transaction batch gets a success shape. -/
theorem C2_insufficient_data_threshold_witness :
    (([] : List Tx).length < 30 ∧ forecast_expenses 0 [] =
      .insufficient "Insufficient data"
        "Need at least 30 transactions for accurate forecasting") ∧
    (30 ≤ sampleTxs.length ∧ ∃ f, forecast_expenses 0 sampleTxs = .success f) :=
  ⟨⟨by decide, (C2_insufficient_data_threshold 0 []).1 (by decide)⟩,
   ⟨by decide, (C2_insufficient_data_threshold 0 sampleTxs).2 (by decide)⟩⟩

/-- C5: every successful forecast's `daily_predictions` has exactly 30
entries whose dates are consecutive calendar days starting the day after the
anchor date (entry `i` is dated `today + i + 1`), hence strictly
increasing. -/
theorem C5_thirty_consecutive_days (today : ℕ) (txs : List Tx)
    (h : 30 ≤ txs.length) :
    ∃ f, forecast_expenses today txs = .success f ∧
      f.daily_predictions.length = 30 ∧
      ∀ i (hi : i < f.daily_predictions.length),
        (f.daily_predictions.get ⟨i, hi⟩).date = today + i + 1 := by
  refine ⟨_, forecast_success_eq today txs h, predsOf_length today txs, ?_⟩
  intro i hi
  rw [predsOf_get today txs i hi]
  exact rfl

/-- Witness for C5: the 30-day batch anchored at day 100. -/
theorem C5_thirty_consecutive_days_witness :
    30 ≤ sampleTxs.length ∧
    ∃ f, forecast_expenses 100 sampleTxs = .success f ∧
      f.daily_predictions.length = 30 ∧
      ∀ i (hi : i < f.daily_predictions.length),
        (f.daily_predictions.get ⟨i, hi⟩).date = 100 + i + 1 :=
  ⟨by decide, C5_thirty_consecutive_days 100 sampleTxs (by decide)⟩

/-- C4: in every produced forecast, the prediction at forward offset `i + 1`
is the arithmetic mean of the daily totals plus `trend * (i+1) / 30`, with
two-decimal rounding applied only at output, and carries the fixed
confidence label "medium". -/
theorem C4_prediction_formula (today : ℕ) (txs : List Tx) (h : 30 ≤ txs.length) :
    ∃ f, forecast_expenses today txs = .success f ∧
      ∀ i (hi : i < f.daily_predictions.length),
        (f.daily_predictions.get ⟨i, hi⟩).predicted_amount =
          oRound2 (oAdd (some ((dailySeries txs).sum / ((dailySeries txs).length : ℚ)))
            (oDiv (oMul (trendOf txs) (some ((i + 1 : ℕ) : ℚ))) (some 30))) ∧
        (f.daily_predictions.get ⟨i, hi⟩).confidence = "medium" := by
  refine ⟨_, forecast_success_eq today txs h, ?_⟩
  intro i hi
  rw [predsOf_get today txs i hi]
  exact ⟨rfl, rfl⟩

/-- Witness for C4: the 30-day batch anchored at day 0. -/
theorem C4_prediction_formula_witness :
    30 ≤ sampleTxs.length ∧
    ∃ f, forecast_expenses 0 sampleTxs = .success f ∧
      ∀ i (hi : i < f.daily_predictions.length),
        (f.daily_predictions.get ⟨i, hi⟩).predicted_amount =
          oRound2 (oAdd (some ((dailySeries sampleTxs).sum /
              ((dailySeries sampleTxs).length : ℚ)))
            (oDiv (oMul (trendOf sampleTxs) (some ((i + 1 : ℕ) : ℚ))) (some 30))) ∧
        (f.daily_predictions.get ⟨i, hi⟩).confidence = "medium" :=
  ⟨by decide, C4_prediction_formula 0 sampleTxs (by decide)⟩

/-- C7: every successful forecast reports "increasing" exactly when the trend
value is a defined positive number, and "decreasing" otherwise; a trend of
exactly 0 reports "decreasing". -/
theorem C7_trend_direction (today : ℕ) (txs : List Tx) (h : 30 ≤ txs.length) :
    ∃ f, forecast_expenses today txs = .success f ∧
      (f.trend = "increasing" ↔ ∃ q, trendOf txs = some q ∧ 0 < q) ∧
      (f.trend = "increasing" ∨ f.trend = "decreasing") ∧
      (trendOf txs = some 0 → f.trend = "decreasing") := by
  refine ⟨_, forecast_success_eq today txs h, ?_, ?_, ?_⟩
  · show (if oPos (trendOf txs) then "increasing" else "decreasing") = "increasing" ↔ _
    cases htr : trendOf txs with
    | none =>
      rw [show oPos none = false from rfl]
      simp only [Bool.false_eq_true, if_false]
      constructor
      · intro hc; exact absurd hc (by decide)
      · rintro ⟨q, hq, -⟩; exact absurd hq (by simp)
    | some q =>
      by_cases hq : 0 < q
      · rw [show oPos (some q) = decide (0 < q) from rfl, decide_eq_true hq]
        simp only [if_true, true_iff]
        exact ⟨q, rfl, hq⟩
      · rw [show oPos (some q) = decide (0 < q) from rfl, decide_eq_false hq]
        simp only [Bool.false_eq_true, if_false]
        constructor
        · intro hc; exact absurd hc (by decide)
        · rintro ⟨q', hq', hpos⟩
          rw [Option.some_inj] at hq'
          exact absurd (hq' ▸ hpos) hq
  · show (if oPos (trendOf txs) then "increasing" else "decreasing") = "increasing" ∨ _
    cases hb : oPos (trendOf txs)
    · exact Or.inr rfl
    · exact Or.inl rfl
  · intro h0
    show (if oPos (trendOf txs) then "increasing" else "decreasing") = "decreasing"
    rw [h0, show oPos (some 0) = false from by decide]
    rfl

/-- Witness for C7: the flat 30-day batch, whose trend is exactly 0 and whose
report is "decreasing". -/
theorem C7_trend_direction_witness :
    30 ≤ sampleTxs.length ∧
    ∃ f, forecast_expenses 0 sampleTxs = .success f ∧
      (f.trend = "increasing" ↔ ∃ q, trendOf sampleTxs = some q ∧ 0 < q) ∧
      (f.trend = "increasing" ∨ f.trend = "decreasing") ∧
      (trendOf sampleTxs = some 0 → f.trend = "decreasing") :=
  ⟨by decide, C7_trend_direction 0 sampleTxs (by decide)⟩

/-- C9: a batch of at least 30 transactions spanning fewer than 30 distinct
days makes the last 30-day moving average NaN, so the trend and every
predicted amount are NaN, yet the operation still returns the success
shape. -/
theorem C9_nan_forecast_on_sparse_days (today : ℕ) (txs : List Tx)
    (h30 : 30 ≤ txs.length) (hdays : (datesOf txs).length < 30) :
    ∃ f, forecast_expenses today txs = .success f ∧
      trendOf txs = none ∧
      ∀ p ∈ f.daily_predictions, p.predicted_amount = none := by
  have hne : txs ≠ [] := by
    intro he
    rw [he] at h30
    exact absurd h30 (by decide)
  have htr := trendOf_none_of_days_lt_30 txs hne hdays
  refine ⟨_, forecast_success_eq today txs h30, htr, ?_⟩
  intro p hp
  have hp' : p ∈ predsOf today txs := hp
  rw [predsOf] at hp'
  rcases List.mem_map.mp hp' with ⟨j, -, rfl⟩
  show oRound2 (oAdd (some (avgDailyOf txs))
      (oDiv (oMul (trendOf txs) (some ((j + 1 : ℕ) : ℚ))) (some 30))) = none
  rw [htr, oMul_none_left, oDiv_none_left, oAdd_none_right]
  rfl

/-- Witness for C9: 30 transactions over 10 distinct days. -/
theorem C9_nan_forecast_on_sparse_days_witness :
    (30 ≤ tenDayTxs.length ∧ (datesOf tenDayTxs).length < 30) ∧
    ∃ f, forecast_expenses 0 tenDayTxs = .success f ∧
      trendOf tenDayTxs = none ∧
      ∀ p ∈ f.daily_predictions, p.predicted_amount = none :=
  ⟨⟨by decide, by decide⟩,
   C9_nan_forecast_on_sparse_days 0 tenDayTxs (by decide) (by decide)⟩

/-- C1 (refuted): for 30 transactions all on one calendar day — fewer than 7
aggregated days — the claim says the trend used for prediction is 0.  The
source's guard `len(ma_7) > 0` (line 103) counts rows of the rolling series,
not defined entries, so it holds for any nonempty series and the trend is
`ma_7.iloc[-1] - ma_30.iloc[-1]` = NaN − NaN = NaN, never 0; every predicted
amount then becomes NaN while the success shape is still returned. -/
theorem C1_trend_nan_not_zero_on_single_day :
    oneDayTxs.length = 30 ∧
    (datesOf oneDayTxs).length = 1 ∧
    trendOf oneDayTxs = none ∧
    trendOf oneDayTxs ≠ some 0 ∧
    (∀ p ∈ predsOf 0 oneDayTxs, p.predicted_amount = none) ∧
    forecast_expenses 0 oneDayTxs ≠
      .insufficient "Insufficient data"
        "Need at least 30 transactions for accurate forecasting" := by
  refine ⟨by decide, by decide, by decide, by decide, by decide, ?_⟩
  rw [forecast_success_eq 0 oneDayTxs (by decide)]
  intro hc
  exact absurd hc (by simp)

/-! ### Model training (`train_categorization_model`, src/main.py lines 174-208)

A labeled training transaction carries the fields the trainer reads:
`description`, `amount`, `transaction_date` (day number), `category_id` and
`user_id`. -/

structure TrainTx where
  description : String
  amount : ℚ
  date : ℕ
  category_id : ℕ
  user_id : ℕ
deriving DecidableEq, Repr, Inhabited

/-- pandas `dt.dayofweek` (Monday = 0) of a day number counted from
1970-01-01, a Thursday. -/
def dayOfWeek (d : ℕ) : ℕ :=
  (d + 3) % 7

/-- The trained artifact.  `RandomForestClassifier(n_estimators=100,
random_state=42).fit(X, y)` is a fixed deterministic function of the feature
matrix `X` and label vector `y`, and `log1p` is injective on amounts ≥ 0, so
the artifact is modelled by the per-row data it is fitted on: one
`(amount, day_of_week)` row per transaction (the `amount` column standing for
the real-valued `log1p(amount)` through that injection) plus the
`category_id` labels.  The claims under check concern persistence keying and
thresholds, not the fitted model's inference behaviour. -/
structure Artifact where
  features : List (ℚ × ℕ)
  labels : List ℕ
deriving DecidableEq, Repr

/-- The feature engineering of lines 186-192 applied to a batch. -/
def artifactOf (txs : List TrainTx) : Artifact :=
  { features := txs.map fun t => (t.amount, dayOfWeek t.date),
    labels := txs.map fun t => t.category_id }

/-- The on-disk model store: the files `models/categorizer_{user_id}.pkl`,
one per user id. -/
abbrev Store := List (ℕ × Artifact)

/-- `joblib.dump(model, model_path)`: write the artifact for one user,
replacing any previous file at that path. -/
def setModel (s : Store) (u : ℕ) (a : Artifact) : Store :=
  (u, a) :: s.filter fun p => !(p.1 == u)

/-- Read back the artifact stored for one user, if any. -/
def getModel (s : Store) (u : ℕ) : Option Artifact :=
  (s.find? fun p => p.1 == u).map fun p => p.2

/-- Result shapes of `/train` (src/main.py lines 183, 201-205). -/
inductive TrainResult where
  | insufficient (message : String)
  | success (message accuracy : String) (samples_used : ℕ)
deriving DecidableEq, Repr

/-- `train_categorization_model` (src/main.py lines 174-208) as a function of
the model store: fewer than 50 rows returns the insufficient message and
leaves the store alone; otherwise the artifact is stored under
`transactions[0]['user_id']` (`headI` — the empty case is unreachable, since
an empty batch fails the length check first) and the confirmation reports
`len(df)` samples. -/
def train_categorization_model (store : Store) (txs : List TrainTx) :
    TrainResult × Store :=
  if txs.length < 50 then
    (.insufficient "Need at least 50 labeled transactions to train", store)
  else
    (.success "Model trained successfully" "~85%" txs.length,
     setModel store txs.headI.user_id (artifactOf txs))

/-- Writing a user's artifact makes it the one read back for that user. -/
theorem getModel_setModel (s : Store) (u : ℕ) (a : Artifact) :
    getModel (setModel s u a) u = some a := by
  unfold getModel setModel
  rw [List.find?_cons_of_pos _ (by simp)]
  rfl

/-! ### Claim theorem for the trainer -/

/-- C6: a training batch with fewer than 50 transactions gets the
insufficient-training-data message and the store is unchanged; a batch of 50
or more persists the engineered artifact under the first transaction's user
id and reports `samples_used` equal to the batch size. -/
theorem C6_training_threshold_and_persistence (store : Store) (txs : List TrainTx) :
    (txs.length < 50 →
      train_categorization_model store txs =
        (.insufficient "Need at least 50 labeled transactions to train", store)) ∧
    (50 ≤ txs.length →
      (train_categorization_model store txs).1 =
        .success "Model trained successfully" "~85%" txs.length ∧
      getModel (train_categorization_model store txs).2 txs.headI.user_id =
        some (artifactOf txs)) := by
  constructor
  · intro h
    unfold train_categorization_model
    rw [if_pos h]
  · intro h
    unfold train_categorization_model
    rw [if_neg (by omega)]
    exact ⟨rfl, getModel_setModel store txs.headI.user_id (artifactOf txs)⟩

/-- A labeled batch of `n` identical-shaped transactions for user 42. -/
def trainBatch (n : ℕ) : List TrainTx :=
  (List.range n).map fun i => ⟨"lunch", 7, i, 1, 42⟩

/-- Witness for C6: 49 transactions leave the (empty) store untouched with
the insufficient message; 50 transactions store the artifact under user 42
and report 50 samples. -/
theorem C6_training_threshold_and_persistence_witness :
    ((trainBatch 49).length < 50 ∧
      train_categorization_model [] (trainBatch 49) =
        (.insufficient "Need at least 50 labeled transactions to train", [])) ∧
    (50 ≤ (trainBatch 50).length ∧
      ((train_categorization_model [] (trainBatch 50)).1 =
        .success "Model trained successfully" "~85%" (trainBatch 50).length ∧
      getModel (train_categorization_model [] (trainBatch 50)).2
          (trainBatch 50).headI.user_id =
        some (artifactOf (trainBatch 50)))) :=
  ⟨⟨by decide, (C6_training_threshold_and_persistence [] (trainBatch 49)).1 (by decide)⟩,
   ⟨by decide, (C6_training_threshold_and_persistence [] (trainBatch 50)).2 (by decide)⟩⟩
